import Mathlib

/-!
Verification of `watch.py` (pyboard_sync): a shallow embedding of the
session configuration, path mapping, sync actions (upload/delete with
bounded retry), and the serial reboot signal, together with theorems
about the embedded definitions.

Modelling conventions:
* Python exceptions are values of `PyErr`; a function that can raise
  returns `World × Option PyErr`, where `some e` is an exception that
  escaped the function and `none` is a normal return.  `FileNotFoundError`
  and the serial library's exception are subclasses of `OSError`, so
  `except OSError` catches them; `IndexError` is not.
* All side effects are recorded in a `World`: the set of files on the
  pyboard drive (`fs`), the set of files in the watched source tree
  (`hostFs`), a schedule of injected transient device faults (`faults`,
  consumed one per fallible device operation via `clock`), and a
  chronological trace of effects (`events`).
-/

namespace Watch

/-- The Python exceptions relevant to `watch.py`. -/
inductive PyErr where
  | osError
  | fileNotFound
  | indexError
  deriving DecidableEq

/-- Whether the exception is an `OSError` (so caught by `except OSError`).
`FileNotFoundError` subclasses `OSError`; `IndexError` does not. -/
def PyErr.isOSError : PyErr → Bool
  | .osError => true
  | .fileNotFound => true
  | .indexError => false

/-- Observable effects, in chronological order. -/
inductive Ev where
  | logLine (s : String)
  | removeCall (p : String) (res : Option PyErr)
  | copyCall (src dst : String) (res : Option PyErr)
  | serialOpen (port : Option String) (baud : Nat) (timeoutSec : Nat) (res : Option PyErr)
  | serialWrite (b : Nat)
  | serialClose
  | sleepMs (ms : Nat)
  deriving DecidableEq

/-- The environment the script acts on plus the trace of its effects. -/
structure World where
  fs : List String
  hostFs : List String
  faults : Nat → Bool
  clock : Nat
  events : List Ev

/-- Append one event to the trace. -/
def ev (w : World) (e : Ev) : World :=
  { w with events := w.events ++ [e] }

/-- Consume the next injected-fault flag. -/
def takeFault (w : World) : Bool × World :=
  (w.faults w.clock, { w with clock := w.clock + 1 })

/-- The session configuration: the fields `PyboardSync.__init__` copies
from the parsed arguments (`path`, `drive`, `verbose`, `reboot`, `port`,
`main`).  `port` is `none` when `-p` was not given. -/
structure Config where
  path : String
  drive : String
  verbose : Bool
  reboot : Bool
  port : Option String
  main : String
  deriving DecidableEq

/-- Python truthiness of the `port` argument: `None` and `""` are falsy. -/
def truthyPort : Option String → Bool
  | none => false
  | some s => !(s == "")

/-- `PyboardSync.__init__`: copies the configuration and raises
`Exception("Port must be set when using reboot mode")` when the reboot
flag is set and the port is falsy. -/
def initSession (args : Config) : Except String Config :=
  if args.reboot && !truthyPort args.port then
    Except.error "Port must be set when using reboot mode"
  else
    Except.ok args

/-- `os.remove(p)`: raises `FileNotFoundError` when `p` is absent,
otherwise may hit an injected transient `OSError` (file busy on the
device), otherwise removes `p`. -/
def osRemove (w : World) (p : String) : World × Option PyErr :=
  if p ∈ w.fs then
    let t := takeFault w
    if t.1 then (ev t.2 (Ev.removeCall p (some PyErr.osError)), some PyErr.osError)
    else (ev { t.2 with fs := t.2.fs.erase p } (Ev.removeCall p none), none)
  else
    (ev w (Ev.removeCall p (some PyErr.fileNotFound)), some PyErr.fileNotFound)

/-- `shutil.copyfile(src, dst)`: raises `FileNotFoundError` when the
source is absent from the host tree, otherwise may hit an injected
transient `OSError` (destination busy/unmounted), otherwise writes
`dst` on the drive. -/
def copyfile (w : World) (src dst : String) : World × Option PyErr :=
  if src ∈ w.hostFs then
    let t := takeFault w
    if t.1 then (ev t.2 (Ev.copyCall src dst (some PyErr.osError)), some PyErr.osError)
    else
      (ev { t.2 with fs := if dst ∈ t.2.fs then t.2.fs else dst :: t.2.fs }
        (Ev.copyCall src dst none), none)
  else
    (ev w (Ev.copyCall src dst (some PyErr.fileNotFound)), some PyErr.fileNotFound)

/-- `PyboardSync.print_if_verbose`. -/
def print_if_verbose (cfg : Config) (w : World) (s : String) : World :=
  if cfg.verbose then ev w (Ev.logLine s) else w

/-- Helper for Python `str.replace` on character lists.  A positive
`skip` means we are still consuming characters covered by the previous
match.  At `skip = 0` we test for a pattern occurrence; matches are
non-overlapping and found left to right, exactly as in CPython. -/
def replaceAllAux (pat rep : List Char) : Nat → List Char → List Char
  | skip, [] => if pat.isEmpty && skip == 0 then rep else []
  | 0, c :: rest =>
    if pat.isPrefixOf (c :: rest) && !pat.isEmpty then
      rep ++ replaceAllAux pat rep (pat.length - 1) rest
    else if pat.isEmpty then
      rep ++ c :: replaceAllAux pat rep 0 rest
    else
      c :: replaceAllAux pat rep 0 rest
  | Nat.succ k, _ :: rest => replaceAllAux pat rep k rest

/-- Python `s.replace(pat, rep)`: every non-overlapping occurrence of
`pat` in `s` is replaced, scanning left to right. -/
def replaceAll (pat rep s : List Char) : List Char :=
  replaceAllAux pat rep 0 s

/-- Python `pat in s` on character lists (substring test). -/
def isSub (pat : List Char) : List Char → Bool
  | [] => pat.isEmpty
  | c :: rest => pat.isPrefixOf (c :: rest) || isSub pat rest

/-- Python `pat in s` on strings. -/
def containsSub (pat s : String) : Bool :=
  isSub pat.data s.data

/-- Drop a single leading `/` or `\` separator, as in
`if real_path[0] == "\\" or real_path[0] == "/": real_path = real_path[1:]`. -/
def stripSep : List Char → List Char
  | [] => []
  | c :: t => if c = '\\' ∨ c = '/' then t else c :: t

/-- `PyboardSync.get_drive_path`: `src_path.replace(self.path, '')`,
then drop one leading separator, then prepend `f"{drive}:"`.  When the
replacement leaves the empty string, `real_path[0]` raises `IndexError`,
modelled as `none`. -/
def get_drive_path (cfg : Config) (src_path : String) : Option String :=
  match replaceAll cfg.path.data [] src_path.data with
  | [] => none
  | c :: rest =>
    some (String.mk (cfg.drive.data ++ ':' :: (if c = '\\' ∨ c = '/' then rest else c :: rest)))

/-- `PyboardSync.reboot_board`: open the serial port at 115200 baud with
a 1 second read timeout (opening may raise the serial library's
`OSError` subclass), write `0x03`, sleep 0.1 s, write `0x04`, sleep
0.1 s, close. -/
def reboot_board (cfg : Config) (w : World) : World × Option PyErr :=
  let t := takeFault w
  if t.1 then
    (ev t.2 (Ev.serialOpen cfg.port 115200 1 (some PyErr.osError)), some PyErr.osError)
  else
    let w1 := ev t.2 (Ev.serialOpen cfg.port 115200 1 none)
    let w2 := print_if_verbose cfg w1 "Soft rebooting board"
    let w3 := ev w2 (Ev.serialWrite 3)
    let w4 := ev w3 (Ev.sleepMs 100)
    let w5 := ev w4 (Ev.serialWrite 4)
    let w6 := ev w5 (Ev.sleepMs 100)
    let w7 := ev w6 Ev.serialClose
    (print_if_verbose cfg w7 "Soft rebooting complete", none)

/-- The main-file special case at the top of the `try:` block of
`upload_file`: `if self.main_file in src_path: print...; os.remove(drive_path)`. -/
def removeStep (cfg : Config) (src_path drive_path : String) (w : World) :
    World × Option PyErr :=
  if containsSub cfg.main src_path then
    osRemove (print_if_verbose cfg w ("Removing " ++ cfg.main)) drive_path
  else (w, none)

/-- The `try:` block of `PyboardSync.upload_file`: compute the drive
path, remove the destination first when the main-file name occurs in
the source path, copy, then reboot when enabled. -/
def uploadBody (cfg : Config) (src_path : String) (w : World) : World × Option PyErr :=
  match get_drive_path cfg src_path with
  | none => (w, some PyErr.indexError)
  | some drive_path =>
    match removeStep cfg src_path drive_path w with
    | (w1, some e) => (w1, some e)
    | (w1, none) =>
      match copyfile w1 src_path drive_path with
      | (w2, some e) => (w2, some e)
      | (w2, none) => if cfg.reboot then reboot_board cfg w2 else (w2, none)

/-- The terminal-failure message printed on retry exhaustion (the three
adjacent string literals of the source concatenated). -/
def maxRetriesMsg : String :=
  "Maximum retries exceeded. If you have an open REPL session, please close it or send Ctrl+C to continue."

/-- `PyboardSync.upload_file`: run the try-block; on `OSError` with
retries left, log, sleep one second and recurse with one fewer retry;
on `OSError` with no retries left, log the terminal failure and return;
any other exception propagates. -/
def upload_file (cfg : Config) (src_path : String) : Nat → World → World × Option PyErr
  | retries, w =>
    match uploadBody cfg src_path w, retries with
    | (w1, none), _ => (w1, none)
    | (w1, some e), Nat.succ r =>
      if e.isOSError then
        let w2 := print_if_verbose cfg w1 "Failed to upload. Retrying in a second."
        let w3 := ev w2 (Ev.sleepMs 1000)
        upload_file cfg src_path r w3
      else (w1, some e)
    | (w1, some e), 0 =>
      if e.isOSError then (print_if_verbose cfg w1 maxRetriesMsg, none)
      else (w1, some e)

/-- The `try:` block of `PyboardSync.delete_file`: compute the drive
path, remove the destination, then reboot when enabled. -/
def deleteBody (cfg : Config) (src_path : String) (w : World) : World × Option PyErr :=
  match get_drive_path cfg src_path with
  | none => (w, some PyErr.indexError)
  | some drive_path =>
    match osRemove w drive_path with
    | (w1, some e) => (w1, some e)
    | (w1, none) => if cfg.reboot then reboot_board cfg w1 else (w1, none)

/-- `PyboardSync.delete_file`: run the try-block; on `OSError` with
retries left, log, sleep one second, and — exactly as in the source —
call `upload_file` (not `delete_file`) with one fewer retry; on
`OSError` with no retries left, log the terminal failure and return. -/
def delete_file (cfg : Config) (src_path : String) (retries : Nat) (w : World) :
    World × Option PyErr :=
  match deleteBody cfg src_path w, retries with
  | (w1, none), _ => (w1, none)
  | (w1, some e), Nat.succ r =>
    if e.isOSError then
      let w2 := print_if_verbose cfg w1 "Failed to upload. Retrying in a second."
      let w3 := ev w2 (Ev.sleepMs 1000)
      upload_file cfg src_path r w3
    else (w1, some e)
  | (w1, some e), 0 =>
    if e.isOSError then (print_if_verbose cfg w1 maxRetriesMsg, none)
    else (w1, some e)

/-- Count the events satisfying `p` in a trace. -/
def countEv (p : Ev → Bool) (l : List Ev) : Nat :=
  (l.filter p).length

/-- `shutil.copyfile` invocations (attempted copies, failed or not). -/
def isCopyCall : Ev → Bool
  | Ev.copyCall _ _ _ => true
  | _ => false

/-- Successful `shutil.copyfile` invocations. -/
def isCopyOk : Ev → Bool
  | Ev.copyCall _ _ none => true
  | _ => false

/-- `os.remove` invocations (attempted removals, failed or not). -/
def isRemoveCall : Ev → Bool
  | Ev.removeCall _ _ => true
  | _ => false

/-- One-second retry backoffs. -/
def isSleepSec : Ev → Bool
  | Ev.sleepMs 1000 => true
  | _ => false

/-- Serial writes. -/
def isSerialWriteEv : Ev → Bool
  | Ev.serialWrite _ => true
  | _ => false

/-- Events visible to the serial transport and the waits between them
(log lines and filesystem calls excluded). -/
def isSerialOrWait : Ev → Bool
  | Ev.serialOpen _ _ _ _ => true
  | Ev.serialWrite _ => true
  | Ev.serialClose => true
  | Ev.sleepMs _ => true
  | _ => false

/-- The sub-trace of serial operations and waits. -/
def serialTrace (l : List Ev) : List Ev :=
  l.filter isSerialOrWait

/-! ### Concrete scenarios used by closed theorems -/

/-- Session for the missing-main-file scenarios: reboot disabled,
verbose on, main file `main.py`. -/
def cfgMain : Config := ⟨"/src", "V", true, false, none, "main.py"⟩

/-- World for the first-ever sync of the main file: the destination
drive is empty, the host has the source file, no injected faults. -/
def wMain : World := ⟨[], ["/src/main.py"], fun _ => false, 0, []⟩

/-- Session for the absent-on-delete scenario: reboot enabled on COM4. -/
def cfgDelAbsent : Config := ⟨"/src", "V", true, true, some "COM4", "x.py"⟩

/-- World for the absent-on-delete scenario: nothing on the drive and
the source file already gone from the host tree. -/
def wDelAbsent : World := ⟨[], [], fun _ => false, 0, []⟩

/-- Session for the transient-delete-failure scenario. -/
def cfgDelBusy : Config := ⟨"/src", "V", true, false, none, "zzz"⟩

/-- World for the transient-delete-failure scenario: the destination
exists and is busy exactly once (fault on the first device operation),
while the source file is already gone from the host tree. -/
def wDelBusy : World := ⟨["V:a.py"], [], fun i => i == 0, 0, []⟩

/-- Session for the retry-twice-then-succeed upload scenario: the
main-file name does not occur in the path, reboot enabled. -/
def cfgRetry : Config := ⟨"/s", "V", false, true, some "COM4", "zz"⟩

/-- World for the retry-twice-then-succeed upload scenario: the first
two device operations fault, the rest succeed. -/
def wRetry : World := ⟨[], ["/s/a.py"], fun i => i == 0 || i == 1, 0, []⟩

/-- Session with root `/a` and volume `V`, as in the spec's mapper
example. -/
def cfgMap : Config := ⟨"/a", "V", false, false, none, "main.py"⟩

/-- World in which every device operation faults (board permanently
busy): drives the budget-exhaustion scenarios. -/
def wAllFail : World := ⟨[], ["/src/main.py"], fun _ => true, 0, []⟩

/-- World with no injected faults and empty filesystems. -/
def wNoFault : World := ⟨[], [], fun _ => false, 0, []⟩

/-! ### Helper lemmas about traces and the primitive operations -/

theorem countEv_append (p : Ev → Bool) (l1 l2 : List Ev) :
    countEv p (l1 ++ l2) = countEv p l1 + countEv p l2 := by
  simp [countEv]

theorem faults_ev (w : World) (e : Ev) : (ev w e).faults = w.faults := rfl

theorem fs_ev (w : World) (e : Ev) : (ev w e).fs = w.fs := rfl

theorem events_ev (w : World) (e : Ev) : (ev w e).events = w.events ++ [e] := rfl

theorem faults_print (cfg : Config) (w : World) (s : String) :
    (print_if_verbose cfg w s).faults = w.faults := by
  unfold print_if_verbose; split <;> rfl

theorem fs_print (cfg : Config) (w : World) (s : String) :
    (print_if_verbose cfg w s).fs = w.fs := by
  unfold print_if_verbose; split <;> rfl

theorem countEv_print (p : Ev → Bool) (cfg : Config) (w : World) (s : String)
    (h : p (Ev.logLine s) = false) :
    countEv p (print_if_verbose cfg w s).events = countEv p w.events := by
  unfold print_if_verbose
  split <;> simp [ev, countEv_append, countEv, List.filter, h]

theorem faults_osRemove (w : World) (p : String) :
    ((osRemove w p).1).faults = w.faults := by
  unfold osRemove takeFault
  dsimp only
  split <;> (try split) <;> rfl

theorem faults_copyfile (w : World) (s d : String) :
    ((copyfile w s d).1).faults = w.faults := by
  unfold copyfile takeFault
  dsimp only
  split <;> (try split) <;> rfl

theorem faults_reboot (cfg : Config) (w : World) :
    ((reboot_board cfg w).1).faults = w.faults := by
  unfold reboot_board takeFault
  dsimp only
  split
  · rfl
  · simp [faults_print, faults_ev]

theorem err_osRemove (w : World) (p : String) (e : PyErr)
    (h : (osRemove w p).2 = some e) : e.isOSError = true := by
  unfold osRemove takeFault at h
  dsimp only at h
  split at h <;> (try split at h) <;> cases e <;> simp_all [PyErr.isOSError]

theorem err_copyfile (w : World) (s d : String) (e : PyErr)
    (h : (copyfile w s d).2 = some e) : e.isOSError = true := by
  unfold copyfile takeFault at h
  dsimp only at h
  split at h <;> (try split at h) <;> cases e <;> simp_all [PyErr.isOSError]

theorem err_reboot (cfg : Config) (w : World) (e : PyErr)
    (h : (reboot_board cfg w).2 = some e) : e.isOSError = true := by
  unfold reboot_board takeFault at h
  dsimp only at h
  split at h <;> cases e <;> simp_all [PyErr.isOSError]

theorem countEv_singleton (p : Ev → Bool) (e : Ev) :
    countEv p [e] = if p e then 1 else 0 := by
  cases h : p e <;> simp [countEv, List.filter, h]

theorem countEv_ev (p : Ev → Bool) (w : World) (e : Ev) :
    countEv p (ev w e).events = countEv p w.events + (if p e then 1 else 0) := by
  rw [events_ev, countEv_append, countEv_singleton]

theorem countEv_nil (p : Ev → Bool) : countEv p [] = 0 := rfl

theorem countEv_cons (p : Ev → Bool) (e : Ev) (l : List Ev) :
    countEv p (e :: l) = (if p e then 1 else 0) + countEv p l := by
  cases h : p e <;> simp [countEv, List.filter_cons, h, Nat.add_comm]

theorem countEv_osRemove (q : Ev → Bool) (w : World) (p : String) :
    countEv q ((osRemove w p).1).events =
      countEv q w.events + (if q (Ev.removeCall p (osRemove w p).2) then 1 else 0) := by
  unfold osRemove takeFault
  dsimp only
  split <;> (try split) <;> simp_all [countEv_append, countEv_singleton, events_ev, ev]

theorem countEv_copyfile (q : Ev → Bool) (w : World) (s d : String) :
    countEv q ((copyfile w s d).1).events =
      countEv q w.events + (if q (Ev.copyCall s d (copyfile w s d).2) then 1 else 0) := by
  unfold copyfile takeFault
  dsimp only
  split <;> (try split) <;> simp_all [countEv_append, countEv_singleton, events_ev, ev]

theorem countEv_reboot (q : Ev → Bool) (cfg : Config) (w : World)
    (h1 : ∀ po b t r, q (Ev.serialOpen po b t r) = false)
    (h2 : ∀ b, q (Ev.serialWrite b) = false)
    (h3 : ∀ m, q (Ev.sleepMs m) = false)
    (h4 : q Ev.serialClose = false)
    (h5 : ∀ s, q (Ev.logLine s) = false) :
    countEv q ((reboot_board cfg w).1).events = countEv q w.events := by
  unfold reboot_board takeFault
  dsimp only
  split <;> simp [countEv_ev, countEv_print, h1, h2, h3, h4, h5]

theorem countEv_removeStep (q : Ev → Bool) (cfg : Config) (s d : String) (w : World)
    (h1 : ∀ p r, q (Ev.removeCall p r) = false)
    (h5 : ∀ s, q (Ev.logLine s) = false) :
    countEv q ((removeStep cfg s d w).1).events = countEv q w.events := by
  unfold removeStep
  split
  · rw [countEv_osRemove, h1, countEv_print]
    · simp
    · exact h5 _
  · rfl

theorem fs_removeStep_absent (cfg : Config) (s d : String) (w : World) (h : d ∉ w.fs) :
    ((removeStep cfg s d w).1).fs = w.fs := by
  unfold removeStep
  split
  · unfold osRemove
    rw [fs_print, if_neg h]
    dsimp only
    rw [fs_ev, fs_print]
  · rfl

theorem faults_removeStep (cfg : Config) (s d : String) (w : World) :
    ((removeStep cfg s d w).1).faults = w.faults := by
  unfold removeStep
  split
  · rw [faults_osRemove, faults_print]
  · rfl

theorem err_removeStep (cfg : Config) (s d : String) (w : World) (e : PyErr)
    (h : (removeStep cfg s d w).2 = some e) : e.isOSError = true := by
  unfold removeStep at h
  split at h
  · exact err_osRemove _ _ _ h
  · simp at h

/-- Every exception escaping the upload try-block is an `OSError`,
provided the path mapping itself does not raise. -/
theorem err_uploadBody (cfg : Config) (s dp : String) (w : World) (e : PyErr)
    (hg : get_drive_path cfg s = some dp)
    (h : (uploadBody cfg s w).2 = some e) : e.isOSError = true := by
  unfold uploadBody at h
  rw [hg] at h
  dsimp only at h
  rcases h1 : removeStep cfg s dp w with ⟨w1, oe1⟩
  rw [h1] at h
  cases oe1 with
  | some e1 =>
    dsimp only at h
    cases h
    exact err_removeStep _ _ _ _ _ (by rw [h1])
  | none =>
    dsimp only at h
    rcases h2 : copyfile w1 s dp with ⟨w2, oe2⟩
    rw [h2] at h
    cases oe2 with
    | some e2 =>
      dsimp only at h
      cases h
      exact err_copyfile _ _ _ _ (by rw [h2])
    | none =>
      dsimp only at h
      split at h
      · exact err_reboot _ _ _ h
      · simp at h

/-- Every exception escaping the delete try-block is an `OSError`,
provided the path mapping itself does not raise. -/
theorem err_deleteBody (cfg : Config) (s dp : String) (w : World) (e : PyErr)
    (hg : get_drive_path cfg s = some dp)
    (h : (deleteBody cfg s w).2 = some e) : e.isOSError = true := by
  unfold deleteBody at h
  rw [hg] at h
  dsimp only at h
  rcases h1 : osRemove w dp with ⟨w1, oe1⟩
  rw [h1] at h
  cases oe1 with
  | some e1 =>
    dsimp only at h
    cases h
    exact err_osRemove _ _ _ (by rw [h1])
  | none =>
    dsimp only at h
    split at h
    · exact err_reboot _ _ _ h
    · simp at h

/-- The upload try-block performs at most one copy. -/
theorem countCopy_uploadBody (cfg : Config) (s : String) (w : World) :
    countEv isCopyCall ((uploadBody cfg s w).1).events ≤ countEv isCopyCall w.events + 1 := by
  unfold uploadBody
  cases hg : get_drive_path cfg s with
  | none => simp
  | some dp =>
    dsimp only
    rcases h1 : removeStep cfg s dp w with ⟨w1, oe1⟩
    have hw1 : countEv isCopyCall w1.events = countEv isCopyCall w.events := by
      have := countEv_removeStep isCopyCall cfg s dp w (fun _ _ => rfl) (fun _ => rfl)
      rw [h1] at this
      exact this
    cases oe1 with
    | some e1 => simpa [hw1] using Nat.le_succ _
    | none =>
      dsimp only
      rcases h2 : copyfile w1 s dp with ⟨w2, oe2⟩
      have hw2 : countEv isCopyCall w2.events ≤ countEv isCopyCall w.events + 1 := by
        have := countEv_copyfile isCopyCall w1 s dp
        rw [h2] at this
        dsimp only at this
        rw [hw1] at this
        split at this <;> omega
      cases oe2 with
      | some e2 => exact hw2
      | none =>
        dsimp only
        split
        · rw [countEv_reboot isCopyCall cfg w2 (fun _ _ _ _ => rfl) (fun _ => rfl)
            (fun _ => rfl) rfl (fun _ => rfl)]
          exact hw2
        · exact hw2

theorem faults_uploadBody (cfg : Config) (s : String) (w : World) :
    ((uploadBody cfg s w).1).faults = w.faults := by
  unfold uploadBody
  cases hg : get_drive_path cfg s with
  | none => rfl
  | some dp =>
    dsimp only
    cases h1 : removeStep cfg s dp w with
    | mk w1 oe1 =>
      have e1 : w1.faults = w.faults := by
        have := faults_removeStep cfg s dp w
        rw [h1] at this
        exact this
      cases oe1 with
      | some _ => exact e1
      | none =>
        dsimp only
        cases h2 : copyfile w1 s dp with
        | mk w2 oe2 =>
          have e2 : w2.faults = w.faults := by
            have := faults_copyfile w1 s dp
            rw [h2] at this
            dsimp only at this
            rw [this, e1]
          cases oe2 with
          | some _ => exact e2
          | none =>
            dsimp only
            split
            · rw [faults_reboot, e2]
            · exact e2

theorem faults_deleteBody (cfg : Config) (s : String) (w : World) :
    ((deleteBody cfg s w).1).faults = w.faults := by
  unfold deleteBody
  cases hg : get_drive_path cfg s with
  | none => rfl
  | some dp =>
    dsimp only
    cases h1 : osRemove w dp with
    | mk w1 oe1 =>
      have e1 : w1.faults = w.faults := by
        have := faults_osRemove w dp
        rw [h1] at this
        exact this
      cases oe1 with
      | some _ => exact e1
      | none =>
        dsimp only
        split
        · rw [faults_reboot, e1]
        · exact e1

/-- Under an always-faulting schedule, `os.remove` raises. -/
theorem osRemove_fails (w : World) (p : String) (hf : ∀ i, w.faults i = true) :
    ((osRemove w p).2).isSome = true := by
  unfold osRemove takeFault
  dsimp only
  split
  · simp [hf]
  · simp

/-- Under an always-faulting schedule, `shutil.copyfile` raises. -/
theorem copyfile_fails (w : World) (s d : String) (hf : ∀ i, w.faults i = true) :
    ((copyfile w s d).2).isSome = true := by
  unfold copyfile takeFault
  dsimp only
  split
  · simp [hf]
  · simp

/-- Under an always-faulting schedule, the upload try-block raises. -/
theorem uploadBody_allfail (cfg : Config) (s dp : String) (w : World)
    (hg : get_drive_path cfg s = some dp) (hf : ∀ i, w.faults i = true) :
    ((uploadBody cfg s w).2).isSome = true := by
  unfold uploadBody
  rw [hg]
  dsimp only
  cases hR : removeStep cfg s dp w with
  | mk w1 oe1 =>
    cases oe1 with
    | some e1 => simp
    | none =>
      dsimp only
      have hw1 : w1 = w := by
        unfold removeStep at hR
        split at hR
        · exfalso
          have hf2 : ∀ i, (print_if_verbose cfg w ("Removing " ++ cfg.main)).faults i = true := by
            simp [faults_print, hf]
          have := osRemove_fails (print_if_verbose cfg w ("Removing " ++ cfg.main)) dp hf2
          rw [hR] at this
          simp at this
        · injection hR with ha hb
          exact ha.symm
      subst hw1
      cases hC : copyfile w1 s dp with
      | mk w2 oe2 =>
        cases oe2 with
        | some e2 => simp
        | none =>
          exfalso
          have := copyfile_fails w1 s dp hf
          rw [hC] at this
          simp at this

/-- Under an always-faulting schedule, the delete try-block raises. -/
theorem deleteBody_allfail (cfg : Config) (s dp : String) (w : World)
    (hg : get_drive_path cfg s = some dp) (hf : ∀ i, w.faults i = true) :
    ((deleteBody cfg s w).2).isSome = true := by
  unfold deleteBody
  rw [hg]
  dsimp only
  cases hR : osRemove w dp with
  | mk w1 oe1 =>
    cases oe1 with
    | some e1 => simp
    | none =>
      exfalso
      have := osRemove_fails w dp hf
      rw [hR] at this
      simp at this

/-- One-step equation: a successful try-block ends the upload. -/
theorem upload_file_step_none (cfg : Config) (s : String) (n : Nat) (w w1 : World)
    (hB : uploadBody cfg s w = (w1, none)) : upload_file cfg s n w = (w1, none) := by
  cases n <;> (rw [upload_file.eq_def]; dsimp only; rw [hB])

/-- One-step equation: an `OSError` with no retries left logs the
terminal failure. -/
theorem upload_file_step_err_zero (cfg : Config) (s : String) (w w1 : World) (e : PyErr)
    (hB : uploadBody cfg s w = (w1, some e)) (hOS : e.isOSError = true) :
    upload_file cfg s 0 w = (print_if_verbose cfg w1 maxRetriesMsg, none) := by
  rw [upload_file.eq_def]; dsimp only; rw [hB]
  dsimp only
  simp [hOS]

/-- One-step equation: an `OSError` with retries left logs, sleeps one
second, and recurses with one fewer retry. -/
theorem upload_file_step_err_succ (cfg : Config) (s : String) (n : Nat) (w w1 : World)
    (e : PyErr) (hB : uploadBody cfg s w = (w1, some e)) (hOS : e.isOSError = true) :
    upload_file cfg s (n + 1) w =
      upload_file cfg s n
        (ev (print_if_verbose cfg w1 "Failed to upload. Retrying in a second.")
          (Ev.sleepMs 1000)) := by
  rw [upload_file.eq_def]; dsimp only; rw [hB]
  dsimp only
  simp [hOS]

/-- One-step equation: a non-`OSError` exception propagates out of the
upload regardless of the remaining retries. -/
theorem upload_file_step_raise (cfg : Config) (s : String) (n : Nat) (w w1 : World)
    (e : PyErr) (hB : uploadBody cfg s w = (w1, some e)) (hOS : e.isOSError = false) :
    upload_file cfg s n w = (w1, some e) := by
  cases n <;> (rw [upload_file.eq_def]; dsimp only; rw [hB]; dsimp only; simp [hOS])

/-- One-step equation: a successful try-block ends the delete. -/
theorem delete_file_step_none (cfg : Config) (s : String) (n : Nat) (w w1 : World)
    (hB : deleteBody cfg s w = (w1, none)) : delete_file cfg s n w = (w1, none) := by
  cases n <;> (rw [delete_file.eq_def, hB])

/-- One-step equation: an `OSError` with no retries left logs the
terminal failure. -/
theorem delete_file_step_err_zero (cfg : Config) (s : String) (w w1 : World) (e : PyErr)
    (hB : deleteBody cfg s w = (w1, some e)) (hOS : e.isOSError = true) :
    delete_file cfg s 0 w = (print_if_verbose cfg w1 maxRetriesMsg, none) := by
  rw [delete_file.eq_def, hB]
  dsimp only
  simp [hOS]

/-- One-step equation: a failing delete with retries left retries by
calling `upload_file` (the source defect). -/
theorem delete_file_step_err_succ (cfg : Config) (s : String) (n : Nat) (w w1 : World)
    (e : PyErr) (hB : deleteBody cfg s w = (w1, some e)) (hOS : e.isOSError = true) :
    delete_file cfg s (n + 1) w =
      upload_file cfg s n
        (ev (print_if_verbose cfg w1 "Failed to upload. Retrying in a second.")
          (Ev.sleepMs 1000)) := by
  rw [delete_file.eq_def, hB]
  dsimp only
  simp [hOS]

/-- `upload_file` contains every `OSError`: whenever the path mapping
succeeds, no exception escapes, for any retry budget and any world. -/
theorem upload_no_raise (cfg : Config) (s dp : String) (hg : get_drive_path cfg s = some dp) :
    ∀ (n : Nat) (w : World), (upload_file cfg s n w).2 = none := by
  intro n
  induction n with
  | zero =>
    intro w
    rcases hB : uploadBody cfg s w with ⟨w1, oe⟩
    cases oe with
    | none => rw [upload_file_step_none cfg s 0 w w1 hB]
    | some e =>
      have hOS : e.isOSError = true := err_uploadBody cfg s dp w e hg (by rw [hB])
      rw [upload_file_step_err_zero cfg s w w1 e hB hOS]
  | succ n ih =>
    intro w
    rcases hB : uploadBody cfg s w with ⟨w1, oe⟩
    cases oe with
    | none => rw [upload_file_step_none cfg s (n + 1) w w1 hB]
    | some e =>
      have hOS : e.isOSError = true := err_uploadBody cfg s dp w e hg (by rw [hB])
      rw [upload_file_step_err_succ cfg s n w w1 e hB hOS]
      exact ih _

/-- `delete_file` contains every `OSError`: whenever the path mapping
succeeds, no exception escapes, for any retry budget and any world. -/
theorem delete_no_raise (cfg : Config) (s dp : String) (hg : get_drive_path cfg s = some dp)
    (n : Nat) (w : World) : (delete_file cfg s n w).2 = none := by
  rcases hB : deleteBody cfg s w with ⟨w1, oe⟩
  cases oe with
  | none => rw [delete_file_step_none cfg s n w w1 hB]
  | some e =>
    have hOS : e.isOSError = true := err_deleteBody cfg s dp w e hg (by rw [hB])
    cases n with
    | zero => rw [delete_file_step_err_zero cfg s w w1 e hB hOS]
    | succ r =>
      rw [delete_file_step_err_succ cfg s r w w1 e hB hOS]
      exact upload_no_raise cfg s dp hg r _

/-- When every attempt of `upload_file` fails (always-faulting schedule),
the terminal-failure message is logged. -/
theorem upload_allfail_log (cfg : Config) (s dp : String)
    (hg : get_drive_path cfg s = some dp) (hv : cfg.verbose = true) :
    ∀ (n : Nat) (w : World), (∀ i, w.faults i = true) →
      Ev.logLine maxRetriesMsg ∈ ((upload_file cfg s n w).1).events := by
  intro n
  induction n with
  | zero =>
    intro w hf
    rcases hB : uploadBody cfg s w with ⟨w1, oe⟩
    cases oe with
    | none =>
      exfalso
      have := uploadBody_allfail cfg s dp w hg hf
      rw [hB] at this
      simp at this
    | some e =>
      have hOS : e.isOSError = true := err_uploadBody cfg s dp w e hg (by rw [hB])
      rw [upload_file_step_err_zero cfg s w w1 e hB hOS]
      simp [print_if_verbose, hv, ev]
  | succ n ih =>
    intro w hf
    rcases hB : uploadBody cfg s w with ⟨w1, oe⟩
    cases oe with
    | none =>
      exfalso
      have := uploadBody_allfail cfg s dp w hg hf
      rw [hB] at this
      simp at this
    | some e =>
      have hOS : e.isOSError = true := err_uploadBody cfg s dp w e hg (by rw [hB])
      rw [upload_file_step_err_succ cfg s n w w1 e hB hOS]
      apply ih
      intro i
      have h1 : w1.faults = w.faults := by
        have := faults_uploadBody cfg s w
        rw [hB] at this
        exact this
      simp [faults_ev, faults_print, h1, hf]

/-- When every attempt of `delete_file` fails (always-faulting schedule),
the terminal-failure message is logged. -/
theorem delete_allfail_log (cfg : Config) (s dp : String)
    (hg : get_drive_path cfg s = some dp) (hv : cfg.verbose = true)
    (n : Nat) (w : World) (hf : ∀ i, w.faults i = true) :
    Ev.logLine maxRetriesMsg ∈ ((delete_file cfg s n w).1).events := by
  rcases hB : deleteBody cfg s w with ⟨w1, oe⟩
  cases oe with
  | none =>
    exfalso
    have := deleteBody_allfail cfg s dp w hg hf
    rw [hB] at this
    simp at this
  | some e =>
    have hOS : e.isOSError = true := err_deleteBody cfg s dp w e hg (by rw [hB])
    cases n with
    | zero =>
      rw [delete_file_step_err_zero cfg s w w1 e hB hOS]
      simp [print_if_verbose, hv, ev]
    | succ r =>
      rw [delete_file_step_err_succ cfg s r w w1 e hB hOS]
      apply upload_allfail_log cfg s dp hg hv
      intro i
      have h1 : w1.faults = w.faults := by
        have := faults_deleteBody cfg s w
        rw [hB] at this
        exact this
      simp [faults_ev, faults_print, h1, hf]

/-- The retry recursion performs at most `n + 1` copy attempts. -/
theorem countCopy_upload (cfg : Config) (s : String) :
    ∀ (n : Nat) (w : World),
      countEv isCopyCall ((upload_file cfg s n w).1).events ≤
        countEv isCopyCall w.events + (n + 1) := by
  intro n
  induction n with
  | zero =>
    intro w
    rcases hB : uploadBody cfg s w with ⟨w1, oe⟩
    have hle : countEv isCopyCall w1.events ≤ countEv isCopyCall w.events + 1 := by
      have := countCopy_uploadBody cfg s w
      rw [hB] at this
      exact this
    cases oe with
    | none => rw [upload_file_step_none cfg s 0 w w1 hB]; exact hle
    | some e =>
      cases hOS : e.isOSError with
      | true =>
        rw [upload_file_step_err_zero cfg s w w1 e hB hOS]
        dsimp only
        rw [countEv_print isCopyCall cfg w1 maxRetriesMsg rfl]
        exact hle
      | false =>
        rw [upload_file_step_raise cfg s 0 w w1 e hB hOS]
        exact hle
  | succ n ih =>
    intro w
    rcases hB : uploadBody cfg s w with ⟨w1, oe⟩
    have hle : countEv isCopyCall w1.events ≤ countEv isCopyCall w.events + 1 := by
      have := countCopy_uploadBody cfg s w
      rw [hB] at this
      exact this
    cases oe with
    | none =>
      rw [upload_file_step_none cfg s (n + 1) w w1 hB]
      exact le_trans hle (by omega)
    | some e =>
      cases hOS : e.isOSError with
      | true =>
        rw [upload_file_step_err_succ cfg s n w w1 e hB hOS]
        have h2 : countEv isCopyCall
            (ev (print_if_verbose cfg w1 "Failed to upload. Retrying in a second.")
              (Ev.sleepMs 1000)).events = countEv isCopyCall w1.events := by
          rw [countEv_ev, countEv_print isCopyCall cfg w1 _ rfl]
          simp [isCopyCall]
        have h3 := ih (ev (print_if_verbose cfg w1 "Failed to upload. Retrying in a second.")
          (Ev.sleepMs 1000))
        rw [h2] at h3
        omega
      | false =>
        rw [upload_file_step_raise cfg s (n + 1) w w1 e hB hOS]
        exact le_trans hle (by omega)

@[simp] theorem isCopyCall_logLine (s : String) : isCopyCall (Ev.logLine s) = false := rfl

@[simp] theorem isCopyCall_removeCall (p : String) (r : Option PyErr) :
    isCopyCall (Ev.removeCall p r) = false := rfl

@[simp] theorem isCopyCall_copyCall (s d : String) (r : Option PyErr) :
    isCopyCall (Ev.copyCall s d r) = true := rfl

@[simp] theorem isCopyCall_sleepMs (m : Nat) : isCopyCall (Ev.sleepMs m) = false := rfl

@[simp] theorem isRemoveCall_logLine (s : String) : isRemoveCall (Ev.logLine s) = false := rfl

@[simp] theorem isRemoveCall_removeCall (p : String) (r : Option PyErr) :
    isRemoveCall (Ev.removeCall p r) = true := rfl

@[simp] theorem isRemoveCall_copyCall (s d : String) (r : Option PyErr) :
    isRemoveCall (Ev.copyCall s d r) = false := rfl

@[simp] theorem isRemoveCall_sleepMs (m : Nat) : isRemoveCall (Ev.sleepMs m) = false := rfl

@[simp] theorem isSerialOrWait_logLine (s : String) :
    isSerialOrWait (Ev.logLine s) = false := rfl

@[simp] theorem isSerialOrWait_serialOpen (po : Option String) (b t : Nat) (r : Option PyErr) :
    isSerialOrWait (Ev.serialOpen po b t r) = true := rfl

@[simp] theorem isSerialOrWait_serialWrite (b : Nat) :
    isSerialOrWait (Ev.serialWrite b) = true := rfl

@[simp] theorem isSerialOrWait_serialClose : isSerialOrWait Ev.serialClose = true := rfl

@[simp] theorem isSerialOrWait_sleepMs (m : Nat) : isSerialOrWait (Ev.sleepMs m) = true := rfl

/-- The remove-first special case on a main-file path with an absent
destination: the log line is printed, then `os.remove` raises
`FileNotFoundError` before any copy. -/
theorem removeStep_main_absent (cfg : Config) (s dp : String) (w : World)
    (hm : containsSub cfg.main s = true) (hd : dp ∉ w.fs) (hv : cfg.verbose = true) :
    removeStep cfg s dp w =
      (ev (ev w (Ev.logLine ("Removing " ++ cfg.main)))
        (Ev.removeCall dp (some PyErr.fileNotFound)), some PyErr.fileNotFound) := by
  unfold removeStep
  rw [if_pos hm]
  unfold print_if_verbose
  rw [if_pos hv]
  unfold osRemove
  rw [fs_ev, if_neg hd]

/-- The whole upload try-block on a main-file path with an absent
destination fails at the removal, leaving the filesystem unchanged. -/
theorem uploadBody_main_absent (cfg : Config) (s dp : String) (w : World)
    (hg : get_drive_path cfg s = some dp) (hm : containsSub cfg.main s = true)
    (hd : dp ∉ w.fs) (hv : cfg.verbose = true) :
    uploadBody cfg s w =
      (ev (ev w (Ev.logLine ("Removing " ++ cfg.main)))
        (Ev.removeCall dp (some PyErr.fileNotFound)), some PyErr.fileNotFound) := by
  unfold uploadBody
  rw [hg]
  dsimp only
  rw [removeStep_main_absent cfg s dp w hm hd hv]

/-- First-ever sync of the main file: with the destination absent, every
attempt fails at the removal, so the upload performs `n + 1` removal
attempts, zero copies, never creates the destination, and ends with the
terminal-failure log. -/
theorem upload_main_absent (cfg : Config) (s dp : String)
    (hg : get_drive_path cfg s = some dp) (hm : containsSub cfg.main s = true)
    (hv : cfg.verbose = true) :
    ∀ (n : Nat) (w : World), dp ∉ w.fs →
      (upload_file cfg s n w).2 = none ∧
      countEv isRemoveCall ((upload_file cfg s n w).1).events =
        countEv isRemoveCall w.events + (n + 1) ∧
      countEv isCopyCall ((upload_file cfg s n w).1).events = countEv isCopyCall w.events ∧
      dp ∉ ((upload_file cfg s n w).1).fs ∧
      Ev.logLine maxRetriesMsg ∈ ((upload_file cfg s n w).1).events := by
  intro n
  induction n with
  | zero =>
    intro w hd
    have hB := uploadBody_main_absent cfg s dp w hg hm hd hv
    rw [upload_file_step_err_zero cfg s w _ _ hB rfl]
    refine ⟨rfl, ?c1, ?c2, ?c3, ?c4⟩
    case c1 =>
      simp [print_if_verbose, hv, ev, countEv_append, countEv_singleton, countEv_cons, countEv_nil]
    case c2 =>
      simp [print_if_verbose, hv, ev, countEv_append, countEv_singleton, countEv_cons, countEv_nil]
    case c3 =>
      simpa [print_if_verbose, hv, ev] using hd
    case c4 =>
      simp [print_if_verbose, hv, ev]
  | succ n ih =>
    intro w hd
    have hB := uploadBody_main_absent cfg s dp w hg hm hd hv
    rw [upload_file_step_err_succ cfg s n w _ _ hB rfl]
    have hd3 : dp ∉ (ev (print_if_verbose cfg
        (ev (ev w (Ev.logLine ("Removing " ++ cfg.main)))
          (Ev.removeCall dp (some PyErr.fileNotFound)))
        "Failed to upload. Retrying in a second.") (Ev.sleepMs 1000)).fs := by
      simpa [print_if_verbose, hv, ev] using hd
    obtain ⟨ih1, ih2, ih3, ih4, ih5⟩ := ih _ hd3
    refine ⟨ih1, ?c1, ?c2, ih4, ih5⟩
    case c1 =>
      rw [ih2]
      simp [print_if_verbose, hv, ev, countEv_append, countEv_singleton, countEv_cons, countEv_nil]
      omega
    case c2 =>
      rw [ih3]
      simp [print_if_verbose, hv, ev, countEv_append, countEv_singleton, countEv_cons, countEv_nil]

/-- `List.isPrefixOf` holds for a list and itself extended to the right. -/
theorem isPrefixOf_append_self : ∀ (l1 l2 : List Char), l1.isPrefixOf (l1 ++ l2) = true := by
  intro l1
  induction l1 with
  | nil => intro l2; simp [List.isPrefixOf]
  | cons c t ih => intro l2; simp [List.isPrefixOf, ih]

/-- A positive skip counter consumes exactly that many characters. -/
theorem replaceAllAux_skip (pat rep : List Char) : ∀ (l1 l2 : List Char),
    replaceAllAux pat rep l1.length (l1 ++ l2) = replaceAllAux pat rep 0 l2 := by
  intro l1
  induction l1 with
  | nil => intro l2; rfl
  | cons c t ih =>
    intro l2
    simp only [List.length_cons, List.cons_append, replaceAllAux]
    exact ih l2

/-- When the pattern does not occur in the string, replacement is the
identity. -/
theorem replaceAllAux_of_not_sub (pat rep : List Char) : ∀ (l : List Char),
    isSub pat l = false → replaceAllAux pat rep 0 l = l := by
  intro l
  induction l with
  | nil =>
    intro h
    simp only [isSub] at h
    simp [replaceAllAux, h]
  | cons c t ih =>
    intro h
    simp only [isSub, Bool.or_eq_false_iff] at h
    obtain ⟨h1, h2⟩ := h
    have hpe : pat.isEmpty = false := by
      cases pat with
      | nil => simp [List.isPrefixOf] at h1
      | cons p pt => rfl
    rw [replaceAllAux.eq_def]
    dsimp only
    simp [h1, hpe, ih h2]

/-- Replacement consumes a leading occurrence of the pattern. -/
theorem replaceAllAux_leading (pat rep l : List Char) (hp : pat ≠ []) :
    replaceAllAux pat rep 0 (pat ++ l) = rep ++ replaceAllAux pat rep 0 l := by
  cases pat with
  | nil => exact absurd rfl hp
  | cons p pt =>
    have hpre := isPrefixOf_append_self (p :: pt) l
    rw [List.cons_append] at hpre
    rw [List.cons_append, replaceAllAux.eq_def]
    dsimp only
    rw [hpre]
    simp only [List.isEmpty_cons, Bool.not_false, Bool.true_and, if_true]
    have hlen : (p :: pt).length - 1 = pt.length := by simp
    rw [hlen, replaceAllAux_skip (p :: pt) rep pt l]

/-- The mapper on a path `root ++ rest` where the root does not occur
again in `rest`: the root is stripped and one leading separator
removed. -/
theorem get_drive_path_under_root (cfg : Config) (rest : String)
    (hp : cfg.path.data ≠ []) (hr : rest.data ≠ [])
    (hn : isSub cfg.path.data rest.data = false) :
    get_drive_path cfg (cfg.path ++ rest) =
      some (String.mk (cfg.drive.data ++ ':' :: stripSep rest.data)) := by
  unfold get_drive_path replaceAll
  have hd : (cfg.path ++ rest).data = cfg.path.data ++ rest.data := String.data_append _ _
  rw [hd, replaceAllAux_leading cfg.path.data [] rest.data hp,
    replaceAllAux_of_not_sub cfg.path.data [] rest.data hn]
  simp only [List.nil_append]
  cases hrd : rest.data with
  | nil => exact absurd hrd hr
  | cons c t =>
    dsimp only
    unfold stripSep
    rfl

/-- A filter distributes over trace concatenation. -/
theorem serialTrace_append (l1 l2 : List Ev) :
    serialTrace (l1 ++ l2) = serialTrace l1 ++ serialTrace l2 := by
  simp [serialTrace]

/-- The reboot signal, when the port opens, appends exactly the serial
sequence open(115200, timeout 1), write 0x03, wait 100 ms, write 0x04,
wait 100 ms, close — and nothing else visible to the transport. -/
theorem reboot_trace (cfg : Config) (w : World) (hf : w.faults w.clock = false) :
    serialTrace ((reboot_board cfg w).1).events =
      serialTrace w.events ++
        [Ev.serialOpen cfg.port 115200 1 none, Ev.serialWrite 3, Ev.sleepMs 100,
         Ev.serialWrite 4, Ev.sleepMs 100, Ev.serialClose] ∧
    (reboot_board cfg w).2 = none := by
  unfold reboot_board takeFault
  dsimp only
  rw [if_neg (by simp [hf])]
  constructor
  · by_cases hv : cfg.verbose <;>
      simp [print_if_verbose, hv, ev, serialTrace, List.filter_append]
  · rfl

/-! ### Claim theorems -/

/-- Claim C1 (code bug): the spec says an Upload of a path containing
the main-file name tolerates "not found" on the pre-copy removal and
proceeds to the copy.  Evaluating the code at the failing input — first
sync of `/src/main.py` with destination `V:main.py` absent, default
budget 4 — shows the opposite: `os.remove` raises `FileNotFoundError`,
`except OSError` treats it as a transient failure, each attempt retries,
the copy step is never reached (5 removal attempts, 0 copies) and the
call ends in the terminal-failure log. -/
theorem c1_code_eval :
    countEv isCopyCall ((upload_file cfgMain "/src/main.py" 4 wMain).1).events = 0 ∧
    countEv isRemoveCall ((upload_file cfgMain "/src/main.py" 4 wMain).1).events = 5 ∧
    Ev.logLine maxRetriesMsg ∈ ((upload_file cfgMain "/src/main.py" 4 wMain).1).events ∧
    (upload_file cfgMain "/src/main.py" 4 wMain).2 = none := by
  decide

/-- Claim C2 (code bug): the spec says a Delete of an absent destination
completes silently and, with reboot enabled, still triggers exactly one
reboot signal.  Evaluating the code — delete of `/src/a.py` with
`V:a.py` absent, reboot enabled on COM4, budget 4 — shows: `os.remove`
raises `FileNotFoundError`, caught as `OSError`, the retry path calls
`upload_file` (4 copy attempts), zero serial writes ever happen, and the
call ends in the terminal-failure log instead of a silent no-op. -/
theorem c2_code_eval :
    countEv isSerialWriteEv ((delete_file cfgDelAbsent "/src/a.py" 4 wDelAbsent).1).events = 0 ∧
    countEv isCopyCall ((delete_file cfgDelAbsent "/src/a.py" 4 wDelAbsent).1).events = 4 ∧
    countEv isRemoveCall ((delete_file cfgDelAbsent "/src/a.py" 4 wDelAbsent).1).events = 1 ∧
    Ev.logLine maxRetriesMsg ∈ ((delete_file cfgDelAbsent "/src/a.py" 4 wDelAbsent).1).events ∧
    (delete_file cfgDelAbsent "/src/a.py" 4 wDelAbsent).2 = none := by
  decide

/-- Claim C3 (code bug): the spec says a transiently failing Delete
re-attempts the removal with the budget decremented.  Evaluating the
code — destination `V:a.py` present but busy on the first device
operation, budget 4 — shows the retry calls `upload_file` instead of
`delete_file`: exactly one removal is ever attempted, four copies are
attempted in its place, and the destination file is never removed. -/
theorem c3_code_eval :
    countEv isRemoveCall ((delete_file cfgDelBusy "/src/a.py" 4 wDelBusy).1).events = 1 ∧
    countEv isCopyCall ((delete_file cfgDelBusy "/src/a.py" 4 wDelBusy).1).events = 4 ∧
    "V:a.py" ∈ ((delete_file cfgDelBusy "/src/a.py" 4 wDelBusy).1).fs ∧
    (delete_file cfgDelBusy "/src/a.py" 4 wDelBusy).2 = none := by
  decide

/-- Claim C4 (counterexample): the claim says only the leading
occurrence of the root is stripped, so `map("/a", "V", "/a/b/a/c")`
should be `"V:b/a/c"`; the code uses Python `str.replace`, which
removes every occurrence, producing `"V:b/c"`. -/
theorem c4_counterexample :
    get_drive_path cfgMap "/a/b/a/c" = some "V:b/c" ∧
    get_drive_path cfgMap "/a/b/a/c" ≠ some "V:b/a/c" := by
  decide

/-- Claim C4 (amended): for every non-empty root, volume, and source
path `root ++ rest` with `rest` non-empty and the root not occurring
again inside `rest`, the mapper produces volume + ":" + `rest` with a
single leading `/` or `\` separator removed; in particular
`map("/a", "V", "/a/b/c") = "V:b/c"`.  (When the root does reoccur,
every occurrence is removed, not only the leading one.) -/
theorem c4_mapper_amended (cfg : Config) (rest : String)
    (hp : cfg.path.data ≠ []) (hr : rest.data ≠ [])
    (hn : isSub cfg.path.data rest.data = false) :
    get_drive_path cfg (cfg.path ++ rest) =
      some (String.mk (cfg.drive.data ++ ':' :: stripSep rest.data)) :=
  get_drive_path_under_root cfg rest hp hr hn

/-- Witness for C4 (amended) at the spec example `map("/a","V","/a/b/c")`. -/
theorem c4_mapper_amended_witness :
    get_drive_path cfgMap (cfgMap.path ++ "/b/c") =
      some (String.mk (cfgMap.drive.data ++ ':' :: stripSep "/b/c".data)) ∧
    String.mk (cfgMap.drive.data ++ ':' :: stripSep "/b/c".data) = "V:b/c" :=
  ⟨c4_mapper_amended cfgMap "/b/c" (by decide) (by decide) (by decide), by decide⟩

/-- Claim C5: for every retry budget `n`, an Upload performs at most
`n + 1` copy attempts before terminating (the recursion is a total
function of the budget); and a copy that fails transiently exactly
twice then succeeds yields exactly 2 one-second backoffs, 1 successful
copy, and 3 copy attempts in total. -/
theorem c5_retry_budget :
    (∀ (cfg : Config) (s : String) (n : Nat) (w : World),
      countEv isCopyCall ((upload_file cfg s n w).1).events ≤
        countEv isCopyCall w.events + (n + 1)) ∧
    countEv isSleepSec ((upload_file cfgRetry "/s/a.py" 4 wRetry).1).events = 2 ∧
    countEv isCopyOk ((upload_file cfgRetry "/s/a.py" 4 wRetry).1).events = 1 ∧
    countEv isCopyCall ((upload_file cfgRetry "/s/a.py" 4 wRetry).1).events = 3 :=
  ⟨fun cfg s n w => countCopy_upload cfg s n w, by decide, by decide, by decide⟩

/-- Claim C6: whenever the path mapping succeeds, neither Upload nor
Delete lets any exception escape to the dispatcher, for any budget and
any world; and when every attempt fails with a recoverable I/O error
(always-faulting schedule) the terminal failure is logged. -/
theorem c6_containment (cfg : Config) (s dp : String) (n : Nat) (w : World)
    (hg : get_drive_path cfg s = some dp) :
    ((upload_file cfg s n w).2 = none ∧ (delete_file cfg s n w).2 = none) ∧
    ((∀ i, w.faults i = true) → cfg.verbose = true →
      Ev.logLine maxRetriesMsg ∈ ((upload_file cfg s n w).1).events ∧
      Ev.logLine maxRetriesMsg ∈ ((delete_file cfg s n w).1).events) :=
  ⟨⟨upload_no_raise cfg s dp hg n w, delete_no_raise cfg s dp hg n w⟩,
    fun hf hv =>
      ⟨upload_allfail_log cfg s dp hg hv n w hf, delete_allfail_log cfg s dp hg hv n w hf⟩⟩

/-- Witness for C6 with every device operation faulting. -/
theorem c6_containment_witness :
    ((upload_file cfgMain "/src/main.py" 4 wAllFail).2 = none ∧
     (delete_file cfgMain "/src/main.py" 4 wAllFail).2 = none) ∧
    (Ev.logLine maxRetriesMsg ∈ ((upload_file cfgMain "/src/main.py" 4 wAllFail).1).events ∧
     Ev.logLine maxRetriesMsg ∈ ((delete_file cfgMain "/src/main.py" 4 wAllFail).1).events) :=
  ⟨(c6_containment cfgMain "/src/main.py" "V:main.py" 4 wAllFail (by decide)).1,
   (c6_containment cfgMain "/src/main.py" "V:main.py" 4 wAllFail (by decide)).2
     (fun i => rfl) rfl⟩

/-- Claim C7: every invocation of the reboot signaler whose port opens
performs, in order, exactly: open the configured port at 115200 baud
with a 1 second read timeout, write `0x03`, wait 100 ms, write `0x04`,
wait 100 ms, close — those exact byte values, that exact order, and no
other serial writes. -/
theorem c7_reboot_sequence (cfg : Config) (w : World) (hf : w.faults w.clock = false) :
    serialTrace ((reboot_board cfg w).1).events =
      serialTrace w.events ++
        [Ev.serialOpen cfg.port 115200 1 none, Ev.serialWrite 3, Ev.sleepMs 100,
         Ev.serialWrite 4, Ev.sleepMs 100, Ev.serialClose] ∧
    (reboot_board cfg w).2 = none :=
  reboot_trace cfg w hf

/-- Witness for C7 on a quiescent serial transport. -/
theorem c7_reboot_sequence_witness :
    serialTrace ((reboot_board cfgRetry wNoFault).1).events =
      serialTrace wNoFault.events ++
        [Ev.serialOpen cfgRetry.port 115200 1 none, Ev.serialWrite 3, Ev.sleepMs 100,
         Ev.serialWrite 4, Ev.sleepMs 100, Ev.serialClose] ∧
    (reboot_board cfgRetry wNoFault).2 = none :=
  c7_reboot_sequence cfgRetry wNoFault rfl

/-- Claim C8: Session construction fails exactly when the reboot flag is
set and the serial port identifier is empty (`None` or `""`); any other
configuration constructs successfully, and the check sits in the
constructor, before any event handling. -/
theorem c8_init_validation (args : Config) :
    (∃ m, initSession args = Except.error m) ↔
      (args.reboot = true ∧ (args.port = none ∨ args.port = some "")) := by
  unfold initSession
  cases hr : args.reboot with
  | false => cases hp : args.port <;> simp [truthyPort]
  | true =>
    cases hp : args.port with
    | none => simp [truthyPort]
    | some s =>
      by_cases hs : s = ""
      · subst hs; simp [truthyPort]
      · simp [truthyPort, hs]

/-- Claim C9: the mapper is partial — on an input whose root removal
leaves the empty string (here the root itself) it indexes an empty
string and raises (`none` in the model); it is total whenever the
remainder after root removal is non-empty. -/
theorem c9_mapper_partial :
    get_drive_path cfgMap "/a" = none ∧
    (∀ (cfg : Config) (s : String), replaceAll cfg.path.data [] s.data ≠ [] →
      (get_drive_path cfg s).isSome = true) := by
  constructor
  · decide
  · intro cfg s h
    unfold get_drive_path
    cases hE : replaceAll cfg.path.data [] s.data with
    | nil => exact absurd hE h
    | cons c t => rfl

/-- Witness for C9: the totality half at a non-degenerate input. -/
theorem c9_mapper_partial_witness :
    (get_drive_path cfgMap "/a/b").isSome = true :=
  c9_mapper_partial.2 cfgMap "/a/b" (by decide)

/-- Claim C10: an Upload of a main-file path whose destination is
absent never reaches the copy: every attempt fails at `os.remove`, so
the call makes exactly budget + 1 removal attempts, performs no copy,
never creates the destination, and ends in the terminal-failure log. -/
theorem c10_mainfile_first_sync (cfg : Config) (s dp : String) (n : Nat) (w : World)
    (hg : get_drive_path cfg s = some dp) (hm : containsSub cfg.main s = true)
    (hv : cfg.verbose = true) (hd : dp ∉ w.fs) :
    (upload_file cfg s n w).2 = none ∧
    countEv isRemoveCall ((upload_file cfg s n w).1).events =
      countEv isRemoveCall w.events + (n + 1) ∧
    countEv isCopyCall ((upload_file cfg s n w).1).events = countEv isCopyCall w.events ∧
    dp ∉ ((upload_file cfg s n w).1).fs ∧
    Ev.logLine maxRetriesMsg ∈ ((upload_file cfg s n w).1).events :=
  upload_main_absent cfg s dp hg hm hv n w hd

/-- Witness for C10 at the first-ever sync of `/src/main.py`. -/
theorem c10_mainfile_first_sync_witness :
    (upload_file cfgMain "/src/main.py" 4 wMain).2 = none ∧
    countEv isRemoveCall ((upload_file cfgMain "/src/main.py" 4 wMain).1).events =
      countEv isRemoveCall wMain.events + 5 ∧
    countEv isCopyCall ((upload_file cfgMain "/src/main.py" 4 wMain).1).events =
      countEv isCopyCall wMain.events ∧
    "V:main.py" ∉ ((upload_file cfgMain "/src/main.py" 4 wMain).1).fs ∧
    Ev.logLine maxRetriesMsg ∈ ((upload_file cfgMain "/src/main.py" 4 wMain).1).events :=
  c10_mainfile_first_sync cfgMain "/src/main.py" "V:main.py" 4 wMain
    (by decide) (by decide) rfl (by decide)

end Watch
